import Mathlib

/-!
Verification of the `jv::BoundedPoly` bounded in-place polymorphic container
(`src/jv/bounded-poly.hpp`).

Two layers are modelled:

* a compile-time trait layer: C++ types are represented by records of the
  traits that the header's predicates consult (`sizeof`, `alignof`,
  `std::is_trivial`, `std::is_nothrow_move_constructible`, base-class ids),
  and movers by records of the mover traits (`std::is_empty`,
  `std::is_nothrow_destructible`, `std::is_nothrow_copy_assignable`,
  invocability on the base, constructibility from a type witness).  The
  predicates `is_storable`, `is_movable` and `can_handle` are transcribed
  from the header over these records.

* an operational layer: a logical value (`Obj`) is a dynamic type id
  together with an association list mapping each class level of the object
  to the observable state declared at that level (mirroring the test
  suite's `Base::i` / `Derived::f` members).  The stateful
  `UniversalMover` bound to class `A` performs
  `new (dst) A(static_cast<A&&>(src))`: the destination is a fresh object
  of dynamic type `A` holding exactly the `A`-observable portion of the
  source, and the source retains only what lies outside that portion (the
  moved-from members are gone, as the tests observe via nulled
  `unique_ptr`s).  `BoundedPoly` is a pair of the mover's bound type and
  the stored object; each public operation is transcribed from the
  member-function bodies in the header.
-/

namespace BoundedPolySpec

/-- Trait record for a C++ type: the traits consulted by the header's
predicates. `id`/`baseIds` model class identity and public bases for
`std::is_base_of`. -/
structure TypeInfo where
  id : Nat
  baseIds : List Nat
  size : Nat
  align : Nat
  isTrivial : Bool
  isNothrowMoveConstructible : Bool
  deriving DecidableEq

/-- `std::is_base_of_v<B, A>`: `B` is `A` itself or one of its bases. -/
def is_base_of (B A : TypeInfo) : Bool :=
  B.id == A.id || A.baseIds.contains B.id

/-- Trait record for a mover type: the traits consulted by `is_movable`.
`nothrowInvocableOn T` models `std::is_nothrow_invocable_r_v<void, Mover,
T&&, void*>`; `nothrowConstructibleFromWitness A` models
`std::is_nothrow_constructible_v<Mover, A const*>`. -/
structure MoverInfo where
  isEmpty : Bool
  isNothrowDestructible : Bool
  isNothrowCopyAssignable : Bool
  nothrowInvocableOn : TypeInfo → Bool
  nothrowConstructibleFromWitness : TypeInfo → Bool

/-- `jv::is_storable<T, Storage>` (header lines 19-23): `T` fits in
`Storage` by size, `Storage`'s alignment is a multiple of `T`'s, and
`Storage` is trivial. -/
def is_storable (T Storage : TypeInfo) : Bool :=
  decide (T.size ≤ Storage.size) && (Storage.align % T.align == 0) &&
  Storage.isTrivial

/-- `jv::is_movable<T, Mover, A>` (header lines 30-38): the mover is
nothrow destructible and nothrow invocable on `T`, `A` derives from `T`,
and - unless the mover is empty - the mover is nothrow copy assignable
and nothrow constructible from an `A const*` witness. -/
def is_movable (T : TypeInfo) (Mover : MoverInfo) (A : TypeInfo) : Bool :=
  Mover.isNothrowDestructible &&
  Mover.nothrowInvocableOn T &&
  is_base_of T A &&
  (Mover.isEmpty ||
   (Mover.isNothrowCopyAssignable && Mover.nothrowConstructibleFromWitness A))

/-- `jv::BoundedPoly<Storage, Base, Mover>::can_handle<T>` (header lines
122-126): `T` is nothrow move constructible, derives from `Base`, is
movable by `Mover`, and is storable in `Storage`. -/
def can_handle (Storage Base : TypeInfo) (Mover : MoverInfo) (T : TypeInfo) :
    Bool :=
  T.isNothrowMoveConstructible && is_base_of Base T &&
  is_movable Base Mover T && is_storable T Storage

/-- A sample storage region: 64 bytes, alignment 8, trivial. -/
def sampleStorage : TypeInfo :=
  { id := 100, baseIds := [], size := 64, align := 8, isTrivial := true,
    isNothrowMoveConstructible := true }

/-- A sample base class: non-trivial (it has a virtual destructor),
nothrow move constructible. -/
def sampleBase : TypeInfo :=
  { id := 0, baseIds := [], size := 16, align := 8, isTrivial := false,
    isNothrowMoveConstructible := true }

/-- A sample derived class of `sampleBase`. -/
def sampleDerived : TypeInfo :=
  { id := 1, baseIds := [0], size := 24, align := 8, isTrivial := false,
    isNothrowMoveConstructible := true }

/-- A sample derived class whose move constructor may throw (or is
absent): `std::is_nothrow_move_constructible_v` is false. -/
def sampleThrowingMove : TypeInfo :=
  { id := 2, baseIds := [0], size := 16, align := 8, isTrivial := false,
    isNothrowMoveConstructible := false }

/-- A mover record for `jv::UniversalMover<Base>`: a captured function
pointer, hence non-empty, nothrow destructible, nothrow copy assignable,
nothrow invocable, nothrow constructible from any witness. -/
def universalMoverInfo : MoverInfo :=
  { isEmpty := false, isNothrowDestructible := true,
    isNothrowCopyAssignable := true,
    nothrowInvocableOn := fun _ => true,
    nothrowConstructibleFromWitness := fun _ => true }

/-- A mover record for `jv::VirtualMover<Base, Method>`: stateless
(`std::is_empty`), nothrow destructible, and nothrow invocable on the
base via the virtual method. -/
def virtualMoverInfo : MoverInfo :=
  { isEmpty := true, isNothrowDestructible := true,
    isNothrowCopyAssignable := true,
    nothrowInvocableOn := fun _ => true,
    nothrowConstructibleFromWitness := fun _ => true }

/-! ## Operational layer -/

/-- Dynamic type identity (what `typeid` observes). -/
abbrev TypeId := Nat

/-- A logical polymorphic value: its dynamic type and, for each class
level of the object (identified by that class's `TypeId`), the observable
state declared at that level.  In the test suite `Base` declares
`unique_ptr<int> i` and `Derived` adds `unique_ptr<float> f`; such an
object is `⟨derivedId, [(baseId, i), (derivedId, f)]⟩`.  A moved-from
member (a nulled `unique_ptr`) is an absent entry. -/
structure Obj where
  ty : TypeId
  state : List (TypeId × Nat)
  deriving DecidableEq

/-- Well-formed object relative to a base-of relation `ib` (`ib b t`
means class `b` is `t` itself or a base of `t`): every state entry lives
at a class level of the object's own dynamic type. -/
def Obj.wf (ib : TypeId → TypeId → Bool) (o : Obj) : Bool :=
  o.state.all fun q => ib q.1 o.ty

/-- `jv::UniversalMover` bound to class `bound` applied to `src` (header
lines 82-91): `new (dst) A(static_cast<A&&>(src))` with `A = bound`.
Returns (destination, source-after-move).  The destination is a fresh
object of dynamic type `bound` holding exactly the `bound`-observable
portion of `src`; the moved-from source keeps its dynamic type and
retains only the state outside that portion (the `A`-subobject members
were consumed by `A`'s move constructor). -/
def UniversalMover.call (ib : TypeId → TypeId → Bool) (bound : TypeId)
    (src : Obj) : Obj × Obj :=
  (⟨bound, src.state.filter fun q => ib q.1 bound⟩,
   ⟨src.ty, src.state.filter fun q => !(ib q.1 bound)⟩)

/-- A `jv::BoundedPoly` container: the stateful mover's bound type
(`details::MoverStorage::mover_`) and the object occupying `storage_`. -/
structure Poly where
  mover : TypeId
  stored : Obj
  deriving DecidableEq

/-- The container invariant: the mover is bound to the exact dynamic type
of the stored value, and the stored value is well formed. -/
def Poly.consistent (ib : TypeId → TypeId → Bool) (p : Poly) : Bool :=
  (p.mover == p.stored.ty) && p.stored.wf ib

/-- `BoundedPoly(Derived&&)` (header lines 132-137): the mover is bound
to `Derived` and the value is move-constructed into storage; the incoming
value has dynamic type `Derived`. -/
def construct (v : Obj) : Poly :=
  ⟨v.ty, v⟩

/-- `BoundedPoly(std::in_place_type_t<Derived>, args...)` (header lines
139-145): the mover is bound to `Derived` and a `Derived` is constructed
from `args` directly in storage; `v` is that constructed value. -/
def constructInPlace (v : Obj) : Poly :=
  ⟨v.ty, v⟩

/-- `BoundedPoly(BoundedPoly&& other)` (header lines 149-152): copy
`other`'s mover, then relocate `other`'s value into this storage through
that mover.  Returns (new container, `other` after the move). -/
def moveConstruct (ib : TypeId → TypeId → Bool) (other : Poly) :
    Poly × Poly :=
  let r := UniversalMover.call ib other.mover other.stored
  (⟨other.mover, r.1⟩, ⟨other.mover, r.2⟩)

/-- `operator=(Derived derived)` (header lines 156-166): first derive the
new mover bound to `Derived` (the only step that may throw, modelled by
`ok`); on failure nothing has been mutated and the container is returned
unchanged; on success the old value is destroyed, the derived mover is
copied in and `derived` is move-constructed into storage. -/
def assignVal (p : Poly) (v : Obj) (ok : Bool) : Poly :=
  if ok then ⟨v.ty, v⟩ else p

/-- `emplace<Derived>(args...)` (header lines 179-187): same sequence as
value assignment, with the new value constructed from `args` in place;
`v` is that constructed value and `ok` models the fallible mover
derivation that precedes the destruction of the old value. -/
def emplace (p : Poly) (v : Obj) (ok : Bool) : Poly :=
  if ok then ⟨v.ty, v⟩ else p

/-- `operator=(BoundedPoly&& other)` (header lines 170-175): destroy the
current value, copy `other`'s mover, relocate `other`'s value into this
storage through it.  Returns (new container, `other` after the move). -/
def moveAssign (ib : TypeId → TypeId → Bool) (_p other : Poly) :
    Poly × Poly :=
  let r := UniversalMover.call ib other.mover other.stored
  (⟨other.mover, r.1⟩, ⟨other.mover, r.2⟩)

/-- `get()` (header lines 195-199): the stored value viewed through the
`Base&` reference; its dynamic type and observable state are those of the
object occupying storage. -/
def Poly.get (p : Poly) : Obj :=
  p.stored

/-- `swap(BoundedPoly& other)` (header lines 221-228) for two distinct
containers: relocate this value to a stack temporary through this mover,
relocate `other`'s value into this storage through `other`'s mover,
relocate the temporary into `other`'s storage through this mover, destroy
the temporary, then swap the two mover states. -/
def swap (ib : TypeId → TypeId → Bool) (a b : Poly) : Poly × Poly :=
  let r1 := UniversalMover.call ib a.mover a.stored
  let r2 := UniversalMover.call ib b.mover b.stored
  let r3 := UniversalMover.call ib a.mover r1.1
  (⟨b.mover, r2.1⟩, ⟨a.mover, r3.1⟩)

/-- `swap` called on the container itself (`a.swap(a)`): the same step
sequence with `other` aliasing `this`, so the second relocation reads the
already moved-from value and writes it back over the same storage, and
the third relocation overwrites that storage with the temporary; the
mover swap is a self-swap, a no-op. -/
def selfSwap (ib : TypeId → TypeId → Bool) (a : Poly) : Poly :=
  let r1 := UniversalMover.call ib a.mover a.stored
  let _r2 := UniversalMover.call ib a.mover r1.2
  let r3 := UniversalMover.call ib a.mover r1.1
  ⟨a.mover, r3.1⟩

/-- One mutating operation on a container, for destructor accounting:
assignment from a value, emplace, or move assignment from another
container. -/
inductive MutOp
  | assignOp (v : Obj)
  | emplaceMut (v : Obj)
  | moveOp (src : Poly)

/-- Apply one mutating operation, returning the new container state and
the number of times the operation ran `get().~Base()` on this container's
current value: value assignment (header line 162), emplace (line 184) and
move assignment (line 171) each destroy the superseded value exactly
once. -/
def applyMut (ib : TypeId → TypeId → Bool) (p : Poly) : MutOp → Poly × Nat
  | .assignOp v => (assignVal p v true, 1)
  | .emplaceMut v => (emplace p v true, 1)
  | .moveOp src => ((moveAssign ib p src).1, 1)

/-- Run a list of mutating operations, accumulating the destructor
count. -/
def runMuts (ib : TypeId → TypeId → Bool) (p : Poly) :
    List MutOp → Poly × Nat
  | [] => (p, 0)
  | op :: rest =>
    let r := applyMut ib p op
    let s := runMuts ib r.1 rest
    (s.1, r.2 + s.2)

/-- Total number of `~Base()` invocations over a container's whole life:
construct from `v0`, run `ops`, then destroy the container
(`~BoundedPoly`, header line 191, destroys the final value once). -/
def dtorCount (ib : TypeId → TypeId → Bool) (v0 : Obj)
    (ops : List MutOp) : Nat :=
  (runMuts ib (construct v0) ops).2 + 1

/-- The base-of relation of the test hierarchy (`tests/main.cpp`): class
`0` (`Base`) is a base of every class, and every class is a base of
itself. -/
def ibTest : TypeId → TypeId → Bool :=
  fun b t => b == 0 || b == t

/-- A `Base{42}` value: dynamic type 0, `Base::i` holding 42. -/
def objBase : Obj :=
  ⟨0, [(0, 42)]⟩

/-- A `Derived{50, 7}` value: dynamic type 1, `Base::i` holding 50 and
`Derived::f` holding 7. -/
def objDerived : Obj :=
  ⟨1, [(0, 50), (1, 7)]⟩

/-- A container built from `Base{42}`. -/
def polyA : Poly :=
  construct objBase

/-- A container built from `Derived{50, 7}`. -/
def polyB : Poly :=
  construct objDerived

/-- Trait records of the test hierarchy, indexed by dynamic type id:
class 0 is `sampleBase`, every other id is `sampleDerived`. -/
def tinfoTest : TypeId → TypeInfo :=
  fun t => if t == 0 then sampleBase else sampleDerived

/-! ## Helper lemmas -/

/-- Relocating an object through a mover bound to its own dynamic type
reproduces the object exactly at the destination. -/
theorem call_fst_of_wf (ib : TypeId → TypeId → Bool) (o : Obj)
    (h : o.wf ib = true) :
    (UniversalMover.call ib o.ty o).1 = o := by
  cases o with
  | mk ty st =>
    simp only [UniversalMover.call, Obj.mk.injEq, true_and]
    rw [List.filter_eq_self]
    simpa [Obj.wf, List.all_eq_true] using h

/-- The destination produced by a mover bound to `bound` is well formed:
all of its state lies at class levels of `bound`. -/
theorem wf_call_fst (ib : TypeId → TypeId → Bool) (bound : TypeId)
    (src : Obj) :
    ((UniversalMover.call ib bound src).1).wf ib = true := by
  simp only [UniversalMover.call, Obj.wf, List.all_eq_true,
    List.mem_filter]
  intro q hq
  exact hq.2

/-- The moved-from source is still well formed: it keeps its dynamic type
and a subset of its state entries. -/
theorem wf_call_snd (ib : TypeId → TypeId → Bool) (bound : TypeId)
    (src : Obj) (h : src.wf ib = true) :
    ((UniversalMover.call ib bound src).2).wf ib = true := by
  simp only [Obj.wf, List.all_eq_true] at h
  simp only [UniversalMover.call, Obj.wf, List.all_eq_true,
    List.mem_filter]
  intro q hq
  exact h q hq.1

/-- Unfolding of the container invariant. -/
theorem consistent_iff (ib : TypeId → TypeId → Bool) (p : Poly) :
    p.consistent ib = true ↔
      p.mover = p.stored.ty ∧ p.stored.wf ib = true := by
  simp [Poly.consistent, Bool.and_eq_true]

/-- On two containers satisfying the invariant, `swap` exchanges them
wholesale: each container ends up with exactly the other's mover and
stored value. -/
theorem swap_eq_of_consistent (ib : TypeId → TypeId → Bool) (a b : Poly)
    (ha : a.consistent ib = true) (hb : b.consistent ib = true) :
    swap ib a b = (b, a) := by
  obtain ⟨ham, haw⟩ := (consistent_iff ib a).mp ha
  obtain ⟨hbm, hbw⟩ := (consistent_iff ib b).mp hb
  have e1 : (UniversalMover.call ib a.mover a.stored).1 = a.stored := by
    rw [ham]; exact call_fst_of_wf ib a.stored haw
  have e2 : (UniversalMover.call ib b.mover b.stored).1 = b.stored := by
    rw [hbm]; exact call_fst_of_wf ib b.stored hbw
  show (⟨b.mover, (UniversalMover.call ib b.mover b.stored).1⟩,
        ⟨a.mover, (UniversalMover.call ib a.mover
          (UniversalMover.call ib a.mover a.stored).1).1⟩) = ((b, a) : Poly × Poly)
  rw [e2, e1, e1]

/-- Self-swap on a container satisfying the invariant leaves it exactly
as it was. -/
theorem selfSwap_eq_of_consistent (ib : TypeId → TypeId → Bool)
    (a : Poly) (ha : a.consistent ib = true) :
    selfSwap ib a = a := by
  obtain ⟨ham, haw⟩ := (consistent_iff ib a).mp ha
  have e1 : (UniversalMover.call ib a.mover a.stored).1 = a.stored := by
    rw [ham]; exact call_fst_of_wf ib a.stored haw
  show (⟨a.mover, (UniversalMover.call ib a.mover
      (UniversalMover.call ib a.mover a.stored).1).1⟩ : Poly) = a
  rw [e1, e1]

/-- Move-construction yields a consistent destination unconditionally:
the inherited mover and the relocated value agree by construction. -/
theorem moveConstruct_fst_consistent (ib : TypeId → TypeId → Bool)
    (other : Poly) :
    ((moveConstruct ib other).1).consistent ib = true := by
  rw [consistent_iff]
  exact ⟨rfl, wf_call_fst ib other.mover other.stored⟩

/-- The source of a move-construction stays consistent: it keeps its
mover and its dynamic type, and its remaining state is well formed. -/
theorem moveConstruct_snd_consistent (ib : TypeId → TypeId → Bool)
    (other : Poly) (ho : other.consistent ib = true) :
    ((moveConstruct ib other).2).consistent ib = true := by
  obtain ⟨hm, hw⟩ := (consistent_iff ib other).mp ho
  rw [consistent_iff]
  exact ⟨hm, wf_call_snd ib other.mover other.stored hw⟩

/-- Both results of `swap` are consistent unconditionally: each relocated
value was produced by the mover the destination container ends up
holding. -/
theorem swap_consistent (ib : TypeId → TypeId → Bool) (a b : Poly) :
    ((swap ib a b).1).consistent ib = true ∧
    ((swap ib a b).2).consistent ib = true := by
  constructor
  · rw [consistent_iff]
    exact ⟨rfl, wf_call_fst ib b.mover b.stored⟩
  · rw [consistent_iff]
    exact ⟨rfl, wf_call_fst ib a.mover
      (UniversalMover.call ib a.mover a.stored).1⟩

/-- Each mutating operation destroys the superseded value exactly
once. -/
theorem applyMut_snd (ib : TypeId → TypeId → Bool) (p : Poly)
    (op : MutOp) :
    (applyMut ib p op).2 = 1 := by
  cases op <;> rfl

/-- Running a list of mutating operations destroys exactly one value per
operation, from any starting state. -/
theorem runMuts_snd (ib : TypeId → TypeId → Bool) (ops : List MutOp) :
    ∀ p : Poly, (runMuts ib p ops).2 = ops.length := by
  induction ops with
  | nil => intro p; rfl
  | cons op rest ih =>
    intro p
    show (applyMut ib p op).2 +
      (runMuts ib (applyMut ib p op).1 rest).2 = (op :: rest).length
    rw [applyMut_snd, ih, List.length_cons]
    omega

/-! ## Claim theorems -/

/-- C1: the storability predicate holds iff `sizeof(T) <= sizeof(S)`, the
alignment of `S` is a multiple of the alignment of `T`, and `S` is
trivial; and `can_handle` includes exactly this storability condition:
admission implies storability, and when every non-storage condition of
`can_handle` holds, admission is equivalent to storability. -/
theorem c1_storability_iff_and_admission (T S Base : TypeInfo)
    (M : MoverInfo) :
    (is_storable T S = true ↔
      (T.size ≤ S.size ∧ S.align % T.align = 0 ∧ S.isTrivial = true)) ∧
    (can_handle S Base M T = true → is_storable T S = true) ∧
    (T.isNothrowMoveConstructible = true → is_base_of Base T = true →
      is_movable Base M T = true →
      (can_handle S Base M T = true ↔ is_storable T S = true)) := by
  refine ⟨?_, ?_, ?_⟩
  · simp [is_storable, Nat.beq_eq_true_eq, and_assoc]
  · intro h
    simp only [can_handle, Bool.and_eq_true] at h
    exact h.2
  · intro h1 h2 h3
    simp [can_handle, h1, h2, h3]

/-- Witness for C1 at concrete trait records: `sampleDerived` is storable
in `sampleStorage` (24 ≤ 64, 8 % 8 = 0, trivial), is admitted by
`can_handle` with the universal mover, and the oversized check rejects a
type of size 100. -/
theorem c1_storability_witness :
    is_storable sampleDerived sampleStorage = true ∧
    sampleDerived.size ≤ sampleStorage.size ∧
    can_handle sampleStorage sampleBase universalMoverInfo sampleDerived
      = true := by
  have h := c1_storability_iff_and_admission sampleDerived sampleStorage
    sampleBase universalMoverInfo
  refine ⟨?_, ?_, ?_⟩
  · exact h.1.mpr (by decide)
  · exact (h.1.mp (by decide)).1
  · exact (h.2.2 (by decide) (by decide) (by decide)).mpr (by decide)

/-- C2: in every reachable observable state the mover is bound to the
exact dynamic type of the stored value; every mutating operation
(construct-from-value, in-place construct, move-construct, value
assignment, move assignment, emplace, swap, self-swap) carries this
invariant from consistent state to consistent state; and in value
assignment and emplace the mover is derived before the old value is
destroyed, so a failed derivation (`ok = false`) leaves the container
completely unmodified. -/
theorem c2_mover_matches_stored_type (ib : TypeId → TypeId → Bool)
    (p other : Poly) (v : Obj)
    (hv : v.wf ib = true)
    (hp : p.consistent ib = true)
    (ho : other.consistent ib = true) :
    (construct v).consistent ib = true ∧
    (constructInPlace v).consistent ib = true ∧
    ((moveConstruct ib other).1).consistent ib = true ∧
    ((moveConstruct ib other).2).consistent ib = true ∧
    (∀ ok, (assignVal p v ok).consistent ib = true) ∧
    (∀ ok, (emplace p v ok).consistent ib = true) ∧
    ((moveAssign ib p other).1).consistent ib = true ∧
    ((moveAssign ib p other).2).consistent ib = true ∧
    ((swap ib p other).1).consistent ib = true ∧
    ((swap ib p other).2).consistent ib = true ∧
    (selfSwap ib p).consistent ib = true ∧
    assignVal p v false = p ∧
    emplace p v false = p := by
  have hfresh : (Poly.mk v.ty v).consistent ib = true := by
    rw [consistent_iff]; exact ⟨rfl, hv⟩
  refine ⟨hfresh, hfresh, moveConstruct_fst_consistent ib other,
    moveConstruct_snd_consistent ib other ho, ?_, ?_, ?_, ?_,
    (swap_consistent ib p other).1, (swap_consistent ib p other).2,
    ?_, rfl, rfl⟩
  · intro ok; cases ok
    · exact hp
    · exact hfresh
  · intro ok; cases ok
    · exact hp
    · exact hfresh
  · exact moveConstruct_fst_consistent ib other
  · exact moveConstruct_snd_consistent ib other ho
  · rw [selfSwap_eq_of_consistent ib p hp]; exact hp

/-- Witness for C2: the invariant facts at the concrete containers
`polyA` (holding `Base{42}`) and `polyB` (holding `Derived{50, 7}`) and
the concrete value `objDerived`, with all hypotheses decided. -/
theorem c2_invariant_witness :
    (construct objDerived).consistent ibTest = true ∧
    ((moveConstruct ibTest polyB).1).consistent ibTest = true ∧
    assignVal polyA objDerived false = polyA := by
  have h := c2_mover_matches_stored_type ibTest polyA polyB objDerived
    (by decide) (by decide) (by decide)
  exact ⟨h.1, h.2.2.1, h.2.2.2.2.2.2.2.2.2.2.2.1⟩

/-- C3: relocation preserves dynamic type identity.  After
move-construction, move assignment, or swap between containers
satisfying the invariant, the dynamic type of the value at each
destination equals the dynamic type the corresponding source held
immediately before the operation. -/
theorem c3_relocation_preserves_dynamic_type (ib : TypeId → TypeId → Bool)
    (a b : Poly)
    (ha : a.consistent ib = true) (hb : b.consistent ib = true) :
    ((moveConstruct ib b).1).get.ty = b.get.ty ∧
    ((moveAssign ib a b).1).get.ty = b.get.ty ∧
    ((swap ib a b).1).get.ty = b.get.ty ∧
    ((swap ib a b).2).get.ty = a.get.ty := by
  obtain ⟨hbm, _⟩ := (consistent_iff ib b).mp hb
  have hs := swap_eq_of_consistent ib a b ha hb
  refine ⟨hbm, hbm, ?_, ?_⟩
  · rw [hs]
  · rw [hs]

/-- Witness for C3 at the concrete containers `polyA` and `polyB`. -/
theorem c3_relocation_witness :
    ((moveConstruct ibTest polyB).1).get.ty = polyB.get.ty ∧
    ((moveAssign ibTest polyA polyB).1).get.ty = polyB.get.ty ∧
    ((swap ibTest polyA polyB).1).get.ty = polyB.get.ty ∧
    ((swap ibTest polyA polyB).2).get.ty = polyA.get.ty :=
  c3_relocation_preserves_dynamic_type ibTest polyA polyB
    (by decide) (by decide)

/-- C4: exactly-once destruction.  A container life consisting of one
construction, `ops.length` further assignments/emplaces/move
assignments, and final teardown - `N = ops.length + 1` operations that
each bind a value - runs `get().~Base()` exactly `N` times: once per
superseded value and once for the final value at teardown. -/
theorem c4_exactly_once_destruction (ib : TypeId → TypeId → Bool)
    (v0 : Obj) (ops : List MutOp) :
    dtorCount ib v0 ops = ops.length + 1 := by
  show (runMuts ib (construct v0) ops).2 + 1 = ops.length + 1
  rw [runMuts_snd ib ops (construct v0)]

/-- C5: for a stateful (non-empty) mover, movability additionally
requires the mover to be nothrow copy assignable and nothrow
constructible from a type witness, and admission (`can_handle`) requires
the candidate subtype itself to be nothrow move constructible; for a
stateless (empty) mover, movability imposes none of these
mover-representation requirements. -/
theorem c5_stateful_vs_stateless_requirements (T A S B : TypeInfo)
    (M : MoverInfo) :
    (M.isEmpty = false →
      (is_movable T M A = true ↔
        (M.isNothrowDestructible = true ∧ M.nothrowInvocableOn T = true ∧
         is_base_of T A = true ∧ M.isNothrowCopyAssignable = true ∧
         M.nothrowConstructibleFromWitness A = true))) ∧
    (can_handle S B M A = true → A.isNothrowMoveConstructible = true) ∧
    (M.isEmpty = true →
      (is_movable T M A = true ↔
        (M.isNothrowDestructible = true ∧ M.nothrowInvocableOn T = true ∧
         is_base_of T A = true))) := by
  refine ⟨?_, ?_, ?_⟩
  · intro h
    simp [is_movable, h, Bool.and_eq_true, and_assoc]
  · intro h
    simp only [can_handle, Bool.and_eq_true] at h
    exact h.1.1.1
  · intro h
    simp [is_movable, h, Bool.and_eq_true, and_assoc]

/-- Witness for C5: the stateful `universalMoverInfo` accepts
`sampleDerived` only with its representation requirements satisfied, and
the stateless `virtualMoverInfo` accepts it from the base conditions
alone. -/
theorem c5_movability_witness :
    universalMoverInfo.isEmpty = false ∧
    is_movable sampleBase universalMoverInfo sampleDerived = true ∧
    virtualMoverInfo.isEmpty = true ∧
    is_movable sampleBase virtualMoverInfo sampleDerived = true := by
  have h1 := c5_stateful_vs_stateless_requirements sampleBase
    sampleDerived sampleStorage sampleBase universalMoverInfo
  have h2 := c5_stateful_vs_stateless_requirements sampleBase
    sampleDerived sampleStorage sampleBase virtualMoverInfo
  refine ⟨rfl, ?_, rfl, ?_⟩
  · exact (h1.1 rfl).mpr ⟨rfl, rfl, by decide, rfl, rfl⟩
  · exact (h2.2.2 rfl).mpr ⟨rfl, rfl, by decide⟩

/-- C6: slicing through a base-bound mover.  Relocating a value whose
dynamic type differs from the mover's bound type `B` produces a
destination of dynamic type `B` (not the source's type) holding exactly
the `B`-observable portion of the source's state; state at class levels
outside `B` is not relocated (it stays behind in the moved-from
source). -/
theorem c6_slicing_through_base_bound_mover (ib : TypeId → TypeId → Bool)
    (B : TypeId) (src : Obj) (hne : src.ty ≠ B) :
    (UniversalMover.call ib B src).1.ty = B ∧
    (UniversalMover.call ib B src).1.ty ≠ src.ty ∧
    (∀ q ∈ src.state, ib q.1 B = true →
      q ∈ (UniversalMover.call ib B src).1.state) ∧
    (∀ q ∈ (UniversalMover.call ib B src).1.state,
      q ∈ src.state ∧ ib q.1 B = true) ∧
    (∀ q ∈ src.state, ib q.1 B = false →
      q ∉ (UniversalMover.call ib B src).1.state ∧
      q ∈ (UniversalMover.call ib B src).2.state) := by
  refine ⟨rfl, ?_, ?_, ?_, ?_⟩
  · exact fun hc => hne hc.symm
  · intro q hq hB
    simp only [UniversalMover.call, List.mem_filter]
    exact ⟨hq, hB⟩
  · intro q hq
    simpa only [UniversalMover.call, List.mem_filter] using hq
  · intro q hq hB
    constructor
    · simp [UniversalMover.call, List.mem_filter, hB]
    · simp only [UniversalMover.call, List.mem_filter, hB]
      simpa using hq

/-- Witness for C6: moving `Derived{50, 7}` through a mover bound to
`Base` (class 0) yields a destination of dynamic type `Base`, and the
derived-only member `(1, 7)` is not relocated but remains in the
moved-from source. -/
theorem c6_slicing_witness :
    (UniversalMover.call ibTest 0 objDerived).1.ty = 0 ∧
    (UniversalMover.call ibTest 0 objDerived).1.ty ≠ objDerived.ty ∧
    ((1, 7) : TypeId × Nat) ∉
      (UniversalMover.call ibTest 0 objDerived).1.state ∧
    ((1, 7) : TypeId × Nat) ∈
      (UniversalMover.call ibTest 0 objDerived).2.state := by
  have h := c6_slicing_through_base_bound_mover ibTest 0 objDerived
    (by decide)
  have h5 := h.2.2.2.2 (1, 7) (by decide) (by decide)
  exact ⟨h.1, h.2.1, h5.1, h5.2⟩

/-- C7: on containers satisfying the invariant, `swap` - via one
temporary buffer and the step order relocate this to the temporary,
relocate other into this, relocate the temporary into other, destroy the
temporary, swap mover states - exchanges the two containers' logical
values and movers wholesale, leaves both results satisfying the
invariant, and tolerates self-swap, which leaves the container exactly
as it was. -/
theorem c7_swap_exchanges_values_and_movers (ib : TypeId → TypeId → Bool)
    (a b : Poly)
    (ha : a.consistent ib = true) (hb : b.consistent ib = true) :
    swap ib a b = (b, a) ∧
    ((swap ib a b).1).consistent ib = true ∧
    ((swap ib a b).2).consistent ib = true ∧
    selfSwap ib a = a :=
  ⟨swap_eq_of_consistent ib a b ha hb, (swap_consistent ib a b).1,
   (swap_consistent ib a b).2, selfSwap_eq_of_consistent ib a ha⟩

/-- Witness for C7 at the concrete containers `polyA` and `polyB`. -/
theorem c7_swap_witness :
    swap ibTest polyA polyB = (polyB, polyA) ∧
    selfSwap ibTest polyA = polyA := by
  have h := c7_swap_exchanges_values_and_movers ibTest polyA polyB
    (by decide) (by decide)
  exact ⟨h.1, h.2.2.2⟩

/-- C8: swap is its own inverse.  Swapping two containers satisfying the
invariant and then swapping the results again restores both containers
to their original movers, dynamic types and observable values. -/
theorem c8_swap_twice_restores (ib : TypeId → TypeId → Bool) (a b : Poly)
    (ha : a.consistent ib = true) (hb : b.consistent ib = true) :
    swap ib (swap ib a b).1 (swap ib a b).2 = (a, b) := by
  rw [swap_eq_of_consistent ib a b ha hb]
  exact swap_eq_of_consistent ib b a hb ha

/-- Witness for C8 at the concrete containers `polyA` and `polyB`. -/
theorem c8_swap_twice_witness :
    swap ibTest (swap ibTest polyA polyB).1 (swap ibTest polyA polyB).2
      = (polyA, polyB) :=
  c8_swap_twice_restores ibTest polyA polyB (by decide) (by decide)

/-- C9: constructing a container from an admitted value and immediately
dereferencing yields a value identical to the original, in observable
state and in dynamic type; the fresh container satisfies the invariant,
and the admitted type is in particular nothrow move constructible. -/
theorem c9_construct_get_roundtrip (ib : TypeId → TypeId → Bool)
    (S B : TypeInfo) (M : MoverInfo) (tinfo : TypeId → TypeInfo) (v : Obj)
    (hadm : can_handle S B M (tinfo v.ty) = true)
    (hv : v.wf ib = true) :
    (construct v).get = v ∧
    (construct v).get.ty = v.ty ∧
    (construct v).consistent ib = true ∧
    (tinfo v.ty).isNothrowMoveConstructible = true := by
  simp only [can_handle, Bool.and_eq_true] at hadm
  refine ⟨rfl, rfl, ?_, hadm.1.1.1⟩
  rw [consistent_iff]
  exact ⟨rfl, hv⟩

/-- Witness for C9: `Derived{50, 7}` is admitted (its trait record is
`sampleDerived`) and round-trips through construction and `get`. -/
theorem c9_roundtrip_witness :
    (construct objDerived).get = objDerived ∧
    (construct objDerived).consistent ibTest = true := by
  have h := c9_construct_get_roundtrip ibTest sampleStorage sampleBase
    universalMoverInfo tinfoTest objDerived (by decide) (by decide)
  exact ⟨h.1, h.2.2.1⟩

/-- C10: for every instantiation, admission requires the candidate to be
nothrow move constructible - also with a stateless (empty) mover, where
the mover itself would relocate the subtype through its virtual method
and imposes no mover-representation requirement: a subtype whose move
constructor is absent or may throw is rejected by `can_handle` even
though `is_movable` accepts it. -/
theorem c10_admission_requires_nothrow_move (S B T : TypeInfo)
    (M : MoverInfo) (hM : M.isEmpty = true)
    (hT : T.isNothrowMoveConstructible = false) :
    can_handle S B M T = false ∧
    (M.isNothrowDestructible = true → M.nothrowInvocableOn B = true →
      is_base_of B T = true → is_movable B M T = true) := by
  constructor
  · simp [can_handle, hT]
  · intro h1 h2 h3
    simp [is_movable, h1, h2, h3, hM]

/-- Witness for C10: `sampleThrowingMove` (nothrow move construction
absent) is movable by the stateless `virtualMoverInfo` yet rejected by
`can_handle`. -/
theorem c10_rejection_witness :
    can_handle sampleStorage sampleBase virtualMoverInfo
      sampleThrowingMove = false ∧
    is_movable sampleBase virtualMoverInfo sampleThrowingMove = true := by
  have h := c10_admission_requires_nothrow_move sampleStorage sampleBase
    sampleThrowingMove virtualMoverInfo rfl rfl
  exact ⟨h.1, h.2 rfl rfl (by decide)⟩

end BoundedPolySpec
